import Mathlib

/-!
Shallow embedding of the CFO-Helper repository (backend `main.py`, dashboard
`app.py`) and proofs about it.

Modelling conventions:
* Python `int` values are Lean `Int`; the in-process usage counters, which
  start at 0 and are only incremented, are `Nat`.
* Python `float` arithmetic in `simulate_scenario` is modelled by exact
  rational arithmetic (`ℚ`); `int(x)` applied to a float is truncation toward
  zero (`pyInt`).
* The process-wide mutable `USAGE_STATS` dictionary is threaded explicitly:
  stateful functions take the current counters and return the new counters.
* The external metering service (`FLEXPRICE_API_KEY`) is taken to be
  unconfigured, so `get_usage_stats` returns a copy of the local counters and
  `log_flexprice_event` only updates the local counters.
* The external language model SDK call and the Python `json.loads` parser are
  external collaborators; they enter `calculate_price` as function parameters
  (`generate_content`, `json_loads`), each returning `Except` with the raised
  exception's message on failure.
-/

namespace CFO

/-- Baseline financial metrics, from `class Metrics(BaseModel)` in `main.py`. -/
structure Metrics where
  runway : Int
  monthly_revenue : Int
  monthly_cogs : Int
  monthly_opex : Int
deriving DecidableEq

/-- Data-model invariant on `Metrics`: all four fields are non-negative
(caller-enforced; the engine itself does not validate). -/
def Metrics.Valid (m : Metrics) : Prop :=
  0 ≤ m.runway ∧ 0 ≤ m.monthly_revenue ∧ 0 ≤ m.monthly_cogs ∧ 0 ≤ m.monthly_opex

instance (m : Metrics) : Decidable m.Valid := by
  unfold Metrics.Valid
  infer_instance

/-- Request body of `POST /simulate`, from `class SimulatePayload(BaseModel)`
in `main.py`.  The `float` field `price_increase_percentage` is modelled as an
exact rational. -/
structure SimulatePayload where
  hires : Int
  marketing_spend_increase : Int
  price_increase_percentage : ℚ
  baseline_metrics : Metrics

/-- The process-wide `USAGE_STATS` dictionary of `main.py`:
`{"scenarios_simulated": 0, "reports_exported": 0, "ai_price_calculations": 0}`. -/
structure UsageStats where
  scenarios_simulated : Nat
  reports_exported : Nat
  ai_price_calculations : Nat
deriving DecidableEq

/-- Function `get_usage_stats` of `main.py` with no `FLEXPRICE_API_KEY`
configured: it returns `USAGE_STATS.copy()`, a snapshot of the local
counters. -/
def get_usage_stats (stats : UsageStats) : UsageStats := stats

/-- Function `log_flexprice_event` of `main.py` with no `FLEXPRICE_API_KEY`
configured: the branch on `event_name` increments the matching local counter,
the external POST is skipped, and the call returns `get_usage_stats(...)`.
Result: (value returned to the caller, new state of `USAGE_STATS`). -/
def log_flexprice_event (event_name : String) (stats : UsageStats) :
    UsageStats × UsageStats :=
  let stats1 :=
    if event_name = "scenario_simulated" then
      { stats with scenarios_simulated := stats.scenarios_simulated + 1 }
    else if event_name = "report_exported" then
      { stats with reports_exported := stats.reports_exported + 1 }
    else if event_name = "ai_price_calculation" then
      { stats with ai_price_calculations := stats.ai_price_calculations + 1 }
    else stats
  (get_usage_stats stats1, stats1)

/-- State transition of `USAGE_STATS` made by one `log_flexprice_event` call. -/
def log_event_state (event_name : String) (stats : UsageStats) : UsageStats :=
  (log_flexprice_event event_name stats).2

/-- Python `int(q)` on a number `q`: truncation toward zero. -/
def pyInt (q : ℚ) : Int :=
  if q < 0 then -⌊-q⌋ else ⌊q⌋

/-- The `simulated_metrics` dictionary built by `simulate_scenario` in
`main.py`. -/
structure SimulatedMetrics where
  runway : Int
  monthly_burn : Int
  monthly_opex : Int
  monthly_profit : Int
  monthly_revenue : Int
  monthly_cogs : Int
deriving DecidableEq

/-- Lines 102-104 of `main.py` (`simulate_scenario`): baseline net profit,
baseline net burn and starting cash, computed from the baseline metrics
alone. -/
def starting_cash (base : Metrics) : Int :=
  let baseline_net_profit := base.monthly_revenue - base.monthly_cogs - base.monthly_opex
  let base_net_burn := if baseline_net_profit < 0 then -baseline_net_profit else 0
  if base_net_burn > 0 then base.runway * base_net_burn else base.monthly_revenue * 12

/-- Endpoint handler `simulate_scenario` of `main.py` (`POST /simulate`).
Python `//` on integers is floor division (`Int.fdiv`); `int(...)` on an
already-integer value is the identity and on a float truncates toward zero
(`pyInt`).  Result: (the `simulated_metrics` of the response, the
`usage_stats` of the response, the new state of `USAGE_STATS`). -/
def simulate_scenario (payload : SimulatePayload) (stats : UsageStats) :
    SimulatedMetrics × UsageStats × UsageStats :=
  let base := payload.baseline_metrics
  let new_monthly_revenue :=
    pyInt ((base.monthly_revenue : ℚ) * (1 + payload.price_increase_percentage / 100))
  let per_hire_monthly : ℚ := 75000 / 12
  let hiring_cost_monthly := (payload.hires : ℚ) * per_hire_monthly
  let new_monthly_opex :=
    pyInt ((base.monthly_opex : ℚ) + hiring_cost_monthly + (payload.marketing_spend_increase : ℚ))
  let new_gross_profit := new_monthly_revenue - base.monthly_cogs
  let new_net_profit := new_gross_profit - new_monthly_opex
  let net_cash_burn := if new_net_profit < 0 then -new_net_profit else 0
  let new_runway :=
    if net_cash_burn > 0 then max 0 (Int.fdiv (starting_cash base) net_cash_burn) else 48
  let logged := log_flexprice_event ("scenario_simulated") stats
  ({ runway := new_runway, monthly_burn := new_monthly_opex,
     monthly_opex := new_monthly_opex, monthly_profit := new_net_profit,
     monthly_revenue := new_monthly_revenue, monthly_cogs := base.monthly_cogs },
   logged.1, logged.2)

/-- Argument of `build_forecast_df` in `app.py`: a metrics dictionary.  The
keys `monthly_revenue`, `monthly_cogs` and `monthly_opex` are accessed
unconditionally; `runway` is read once with `metrics["runway"]` (a present key
is required there) and once with `metrics.get("runway", 36)` (absence falls
back to 36), so it is modelled as optional. -/
structure ForecastInput where
  runway : Option Int
  monthly_revenue : Int
  monthly_cogs : Int
  monthly_opex : Int
deriving DecidableEq

/-- Line 57 of `app.py`: `net_profit` of the metrics handed to
`build_forecast_df`. -/
def net_profit (m : ForecastInput) : Int :=
  m.monthly_revenue - m.monthly_cogs - m.monthly_opex

/-- Lines 60-61 of `app.py`: `runway_duration = metrics.get("runway", 36)`,
then `if runway_duration <= 0: runway_duration = 1`. -/
def runway_duration (m : ForecastInput) : Int :=
  let d := m.runway.getD 36
  if d ≤ 0 then 1 else d

/-- Lines 62-63 of `app.py`: the rows of the returned data frame, one pair
`(month i+1, max(0, starting_cash + net_profit * i))` per month index
`i < d`. -/
def forecast_rows (sc np : Int) (d : Nat) : List (Int × Int) :=
  (List.range d).map fun (i : Nat) => ((i : Int) + 1, max 0 (sc + np * (i : Int)))

/-- Function `build_forecast_df` of `app.py`.  `none` models the `KeyError`
raised on line 59 when the `runway` key is absent while the baseline is
burning cash (`metrics["runway"] * base_net_burn` with no `runway` key). -/
def build_forecast_df (m : ForecastInput) : Option (List (Int × Int)) :=
  let np := net_profit m
  let base_net_burn := if np < 0 then -np else 0
  let sc? : Option Int :=
    if base_net_burn > 0 then m.runway.map (fun r => r * base_net_burn)
    else some (m.monthly_revenue * 12)
  sc?.map fun sc => forecast_rows sc np (runway_duration m).toNat

/-- Horizon rule exactly as the specification claim words it: the horizon
resolves to `metrics.runway` if `runway` is present and positive, else to 36;
a resolved horizon `≤ 0` is clamped to 1.  Written from the claim's words for
comparison with `runway_duration`, which is written from the source. -/
def claimed_horizon (m : ForecastInput) : Int :=
  let resolved :=
    match m.runway with
    | some r => if r > 0 then r else 36
    | none => 36
  if resolved ≤ 0 then 1 else resolved

/-- Minimal JSON value tree, for the bodies the pricing endpoint returns. -/
inductive JsonValue where
  | null
  | bool (b : Bool)
  | num (q : ℚ)
  | str (s : String)
  | arr (elems : List JsonValue)
  | obj (fields : List (String × JsonValue))

/-- A top-level JSON object: ordered key-value pairs, as a Python dict. -/
def JsonObj := List (String × JsonValue)

/-- Python dict item assignment `d[k] = v`: replace the value of an existing
key in place, otherwise append the new pair. -/
def dict_set : JsonObj → String → JsonValue → JsonObj
  | [], k, v => [(k, v)]
  | (k0, v0) :: rest, k, v =>
    if k0 = k then (k, v) :: rest else (k0, v0) :: dict_set rest k v

/-- JSON image of a `UsageStats` snapshot (the `usage_stats` member the
endpoint adds to its response body). -/
def usage_stats_json (s : UsageStats) : JsonValue :=
  JsonValue.obj
    [("scenarios_simulated", JsonValue.num s.scenarios_simulated),
     ("reports_exported", JsonValue.num s.reports_exported),
     ("ai_price_calculations", JsonValue.num s.ai_price_calculations)]

/-- Outcome of the `POST /flexprice/calculate` handler: either a
`JSONResponse` with a body, or a raised `HTTPException` with a status code and
a detail message. -/
inductive CalcResult where
  | jsonResponse (content : JsonObj)
  | httpException (status_code : Nat) (detail : String)

/-- Line 138 of `main.py`: strip the model response and remove code-fence
markers before parsing. -/
def cleaned_response (text : String) : String :=
  ((text.trim.replace ("```json") ("")).replace ("```") ("")).trim

/-- Line 135 of `main.py`: the prompt sent to the language model. -/
def gemini_prompt (product_description : String) : String :=
  "Respond ONLY with a valid JSON object with keys \"optimal_price\" (number) and \"reasoning\" (string). Product: \"" ++ product_description ++ "\""

/-- Endpoint handler `calculate_price` of `main.py`
(`POST /flexprice/calculate`), with no external metering service configured.
`generate_content` models the language-model SDK call (returning the response
text, or the raised exception's message), and `json_loads` models Python
`json.loads` restricted to top-level objects (returning the parsed object, or
the `JSONDecodeError` message for invalid input).  Any such failure inside the
`try` block becomes an `HTTPException` 500 whose detail interpolates the
exception.  Result: (response or exception, new state of `USAGE_STATS`). -/
def calculate_price (gemini_api_key : Option String)
    (generate_content : String → Except String String)
    (json_loads : String → Except String JsonObj)
    (product_description : String) (stats : UsageStats) :
    CalcResult × UsageStats :=
  let logged := log_flexprice_event ("ai_price_calculation") stats
  let updated_usage_stats := logged.1
  let stats1 := logged.2
  match gemini_api_key with
  | some _ =>
    match generate_content (gemini_prompt product_description) with
    | Except.error e =>
      (CalcResult.httpException 500 ("Error with Gemini API: " ++ e), stats1)
    | Except.ok text =>
      match json_loads (cleaned_response text) with
      | Except.error e =>
        (CalcResult.httpException 500 ("Error with Gemini API: " ++ e), stats1)
      | Except.ok result_json =>
        (CalcResult.jsonResponse
          (dict_set result_json ("usage_stats") (usage_stats_json updated_usage_stats)),
         stats1)
  | none =>
    (CalcResult.jsonResponse
      [("optimal_price", JsonValue.num 999),
       ("reasoning", JsonValue.str ("GEMINI_API_KEY not configured.")),
       ("usage_stats", usage_stats_json updated_usage_stats)],
     stats1)

/-! Helper lemmas. -/

/-- Truncation toward zero agrees with `floor` on non-negative rationals. -/
lemma pyInt_eq_floor (q : ℚ) (h : 0 ≤ q) : pyInt q = ⌊q⌋ := by
  unfold pyInt
  rw [if_neg (not_lt.mpr h)]

/-- The forecast has one row per month index below the horizon. -/
lemma forecast_rows_length (sc np : Int) (d : Nat) :
    (forecast_rows sc np d).length = d := by
  unfold forecast_rows
  rw [List.length_map, List.length_range]

/-- Row `i` of the forecast is `(i+1, max 0 (sc + np * i))`. -/
lemma forecast_rows_get (sc np : Int) (d i : Nat)
    (hi : i < (forecast_rows sc np d).length) :
    (forecast_rows sc np d).get ⟨i, hi⟩ = ((i : Int) + 1, max 0 (sc + np * (i : Int))) := by
  simp only [forecast_rows, List.get_eq_getElem, List.getElem_map, List.getElem_range]

/-- Any series `build_forecast_df` returns is `forecast_rows` for some starting
cash, with the input's net profit and horizon. -/
lemma build_forecast_df_eq_some (m : ForecastInput) (s : List (Int × Int))
    (h : build_forecast_df m = some s) :
    ∃ sc, s = forecast_rows sc (net_profit m) (runway_duration m).toNat := by
  simp only [build_forecast_df] at h
  rcases Option.map_eq_some'.mp h with ⟨sc, _, hs⟩
  exact ⟨sc, hs.symm⟩

/-- The starting cash of `simulate_scenario` in the form the specification
states it: computed from the baseline alone, from the sign of the baseline net
profit. -/
lemma starting_cash_eq (base : Metrics) :
    starting_cash base =
      if base.monthly_revenue - base.monthly_cogs - base.monthly_opex < 0
      then base.runway * (-(base.monthly_revenue - base.monthly_cogs - base.monthly_opex))
      else base.monthly_revenue * 12 := by
  by_cases h : base.monthly_revenue - base.monthly_cogs - base.monthly_opex < 0
  · have h2 : (0 : Int) < -(base.monthly_revenue - base.monthly_cogs - base.monthly_opex) := by
      omega
    simp only [starting_cash, if_pos h, gt_iff_lt, if_pos h2]
  · simp only [starting_cash, if_neg h, gt_iff_lt, if_neg (lt_irrefl (0 : Int))]

/-! Claim theorems. -/

/-- C1: for every baseline satisfying the data-model invariant and every
`hires ≥ 0`, `marketing_spend_increase ≥ 0`, `price_increase_percentage ≥ 0`,
`simulate_scenario` returns
`monthly_revenue = floor(revenue * (1 + pct/100))`,
`monthly_opex = floor(opex + hires * 75000/12 + marketing)` and
`monthly_profit = monthly_revenue - cogs - monthly_opex`; in particular, for
the baseline (18, 220000, 40000, 150000) with hires 2, marketing 10000 and a
10 percent price increase it returns 242000, 172500 and 29500. -/
theorem simulate_scenario_formulas (p : SimulatePayload) (stats : UsageStats)
    (hbase : p.baseline_metrics.Valid) (hh : 0 ≤ p.hires)
    (hm : 0 ≤ p.marketing_spend_increase) (hp : 0 ≤ p.price_increase_percentage) :
    ((simulate_scenario p stats).1.monthly_revenue =
        ⌊(p.baseline_metrics.monthly_revenue : ℚ) * (1 + p.price_increase_percentage / 100)⌋ ∧
      (simulate_scenario p stats).1.monthly_opex =
        ⌊(p.baseline_metrics.monthly_opex : ℚ) + (p.hires : ℚ) * (75000 / 12) +
          (p.marketing_spend_increase : ℚ)⌋ ∧
      (simulate_scenario p stats).1.monthly_profit =
        (simulate_scenario p stats).1.monthly_revenue - p.baseline_metrics.monthly_cogs -
          (simulate_scenario p stats).1.monthly_opex) ∧
    ((simulate_scenario ⟨2, 10000, 10, ⟨18, 220000, 40000, 150000⟩⟩ ⟨0, 0, 0⟩).1.monthly_revenue
        = 242000 ∧
      (simulate_scenario ⟨2, 10000, 10, ⟨18, 220000, 40000, 150000⟩⟩ ⟨0, 0, 0⟩).1.monthly_opex
        = 172500 ∧
      (simulate_scenario ⟨2, 10000, 10, ⟨18, 220000, 40000, 150000⟩⟩ ⟨0, 0, 0⟩).1.monthly_profit
        = 29500) := by
  obtain ⟨hrun, hrev, hcogs, hopex⟩ := hbase
  constructor
  · refine ⟨?_, ?_, rfl⟩
    · show pyInt _ = _
      apply pyInt_eq_floor
      have h1 : (0 : ℚ) ≤ (p.baseline_metrics.monthly_revenue : ℚ) := by exact_mod_cast hrev
      have h2 : (0 : ℚ) ≤ 1 + p.price_increase_percentage / 100 :=
        add_nonneg zero_le_one (div_nonneg hp (by norm_num))
      exact mul_nonneg h1 h2
    · show pyInt _ = _
      apply pyInt_eq_floor
      have h1 : (0 : ℚ) ≤ (p.baseline_metrics.monthly_opex : ℚ) := by exact_mod_cast hopex
      have h2 : (0 : ℚ) ≤ (p.hires : ℚ) * (75000 / 12) :=
        mul_nonneg (by exact_mod_cast hh) (by norm_num)
      have h3 : (0 : ℚ) ≤ (p.marketing_spend_increase : ℚ) := by exact_mod_cast hm
      exact add_nonneg (add_nonneg h1 h2) h3
  · refine ⟨?_, ?_, ?_⟩ <;> norm_num [simulate_scenario, pyInt]

/-- C1 witness: the hypotheses hold at the concrete baseline and scenario of
the claim, and there the simulated revenue, opex and profit are 242000,
172500 and 29500. -/
theorem simulate_scenario_formulas_witness :
    (Metrics.Valid ⟨18, 220000, 40000, 150000⟩ ∧ (0 : Int) ≤ 2 ∧ (0 : Int) ≤ 10000 ∧
      (0 : ℚ) ≤ 10) ∧
    ((simulate_scenario ⟨2, 10000, 10, ⟨18, 220000, 40000, 150000⟩⟩ ⟨0, 0, 0⟩).1.monthly_revenue
        = 242000 ∧
      (simulate_scenario ⟨2, 10000, 10, ⟨18, 220000, 40000, 150000⟩⟩ ⟨0, 0, 0⟩).1.monthly_opex
        = 172500 ∧
      (simulate_scenario ⟨2, 10000, 10, ⟨18, 220000, 40000, 150000⟩⟩ ⟨0, 0, 0⟩).1.monthly_profit
        = 29500) :=
  ⟨⟨by decide, by decide, by decide, by norm_num⟩,
    (simulate_scenario_formulas ⟨2, 10000, 10, ⟨18, 220000, 40000, 150000⟩⟩ ⟨0, 0, 0⟩
      (by decide) (by decide) (by decide) (by norm_num)).2⟩

/-- Guarded floor division as `simulate_scenario` performs it, rephrased on
the sign of the profit. -/
lemma ite_burn (sc profit : Int) :
    (if (if profit < 0 then -profit else 0) > 0
     then max 0 (Int.fdiv sc (if profit < 0 then -profit else 0)) else 48) =
    if profit < 0 then max 0 (Int.fdiv sc (-profit)) else 48 := by
  by_cases h : profit < 0
  · have h2 : (0 : Int) < -profit := by omega
    simp [h, h2]
  · simp [h]

/-- The runway field of a simulation result, as a function of the result's own
profit field and of the baseline-only starting cash. -/
lemma simulate_scenario_runway_eq (p : SimulatePayload) (stats : UsageStats) :
    (simulate_scenario p stats).1.runway =
      if (simulate_scenario p stats).1.monthly_profit < 0
      then max 0 (Int.fdiv (starting_cash p.baseline_metrics)
                    (-(simulate_scenario p stats).1.monthly_profit))
      else 48 :=
  ite_burn (starting_cash p.baseline_metrics) ((simulate_scenario p stats).1.monthly_profit)

/-- C2: the runway `simulate_scenario` returns is the fixed sentinel 48
whenever the simulated net profit is non-negative, and otherwise
`floor(starting_cash / net_cash_burn)` floored at 0, where the starting cash
is computed from the baseline alone (`runway * (-baseline_net_profit)` when
the baseline net profit is negative, else `monthly_revenue * 12`) and is
independent of the scenario parameters. -/
theorem simulate_scenario_runway_rule (p : SimulatePayload) (stats : UsageStats) :
    (0 ≤ (simulate_scenario p stats).1.monthly_profit →
      (simulate_scenario p stats).1.runway = 48) ∧
    ((simulate_scenario p stats).1.monthly_profit < 0 →
      (simulate_scenario p stats).1.runway =
        max 0 (Int.fdiv
          (if p.baseline_metrics.monthly_revenue - p.baseline_metrics.monthly_cogs -
                p.baseline_metrics.monthly_opex < 0
           then p.baseline_metrics.runway *
                  (-(p.baseline_metrics.monthly_revenue - p.baseline_metrics.monthly_cogs -
                    p.baseline_metrics.monthly_opex))
           else p.baseline_metrics.monthly_revenue * 12)
          (-(simulate_scenario p stats).1.monthly_profit))) := by
  constructor
  · intro h
    rw [simulate_scenario_runway_eq, if_neg (not_lt.mpr h)]
  · intro h
    rw [simulate_scenario_runway_eq, if_pos h, ← starting_cash_eq]

/-- C2 witness: a concrete unprofitable scenario (hires 0, marketing increase
100000, no price change, against the profitable demo baseline): the simulated
net profit is negative and the runway is the floored quotient of the
baseline-only starting cash by the burn. -/
theorem simulate_scenario_runway_rule_witness :
    ((simulate_scenario ⟨0, 100000, 0, ⟨18, 220000, 40000, 150000⟩⟩ ⟨0, 0, 0⟩).1.monthly_profit
        < 0) ∧
    (simulate_scenario ⟨0, 100000, 0, ⟨18, 220000, 40000, 150000⟩⟩ ⟨0, 0, 0⟩).1.runway =
      max 0 (Int.fdiv
        (if (220000 : Int) - 40000 - 150000 < 0 then 18 * (-((220000 : Int) - 40000 - 150000))
         else 220000 * 12)
        (-(simulate_scenario ⟨0, 100000, 0, ⟨18, 220000, 40000, 150000⟩⟩
            ⟨0, 0, 0⟩).1.monthly_profit)) :=
  ⟨by norm_num [simulate_scenario, pyInt],
    (simulate_scenario_runway_rule ⟨0, 100000, 0, ⟨18, 220000, 40000, 150000⟩⟩ ⟨0, 0, 0⟩).2
      (by norm_num [simulate_scenario, pyInt])⟩

/-- C9: in every simulation result, the `monthly_burn` field equals the
`monthly_opex` field (both carry the new monthly opex). -/
theorem simulate_scenario_burn_eq_opex (p : SimulatePayload) (stats : UsageStats) :
    (simulate_scenario p stats).1.monthly_burn = (simulate_scenario p stats).1.monthly_opex :=
  rfl

/-- C3 counterexample: for the metrics dictionary with the `runway` key
present and equal to 0 (demo revenue 220000, cogs 40000, opex 150000), the
claim's rule resolves the horizon to 36, but `build_forecast_df` produces a
series of length 1. -/
theorem claimed_horizon_counterexample :
    claimed_horizon ⟨some 0, 220000, 40000, 150000⟩ = 36 ∧
    (build_forecast_df ⟨some 0, 220000, 40000, 150000⟩).map List.length = some 1 := by
  decide

/-- C3 amended: the forecast horizon resolves to `metrics.runway` whenever the
`runway` key is present (and to 36 only when it is absent); if the resolved
horizon is ≤ 0 it is clamped to 1.  Stated on the length of the series
`build_forecast_df` returns. -/
theorem forecast_horizon_rule (m : ForecastInput) (s : List (Int × Int))
    (h : build_forecast_df m = some s) :
    (m.runway = none → s.length = 36) ∧
    (∀ r, m.runway = some r → r ≤ 0 → s.length = 1) ∧
    (∀ r, m.runway = some r → 0 < r → s.length = r.toNat) := by
  obtain ⟨sc, rfl⟩ := build_forecast_df_eq_some m s h
  rw [forecast_rows_length]
  refine ⟨fun hr => ?_, fun r hr hle => ?_, fun r hr hpos => ?_⟩
  · rw [runway_duration, hr]
    rfl
  · rw [runway_duration, hr]
    simp only [Option.getD_some]
    rw [if_pos hle]
    rfl
  · rw [runway_duration, hr]
    simp only [Option.getD_some]
    rw [if_neg (not_le.mpr hpos)]

/-- C3 amended witness: a present `runway` of 5 on a cash-burning baseline
yields a five-row series. -/
theorem forecast_horizon_rule_witness :
    build_forecast_df ⟨some 5, 100, 20, 130⟩ =
      some [(1, 250), (2, 200), (3, 150), (4, 100), (5, 50)] ∧
    ([((1 : Int), (250 : Int)), (2, 200), (3, 150), (4, 100), (5, 50)]).length = (5 : Int).toNat :=
  ⟨by decide,
    (forecast_horizon_rule ⟨some 5, 100, 20, 130⟩ _ (by decide)).2.2 5 rfl (by decide)⟩

/-- C4: when the `runway` key is present and equal to 0, `build_forecast_df`
returns a series of exactly one pair whose month component is 1. -/
theorem forecast_runway_zero (m : ForecastInput) (h : m.runway = some 0) :
    ∃ c, build_forecast_df m = some [(1, c)] := by
  obtain ⟨rw0, rev, cogs, opex⟩ := m
  cases h
  unfold build_forecast_df net_profit runway_duration forecast_rows
  by_cases hb : rev - cogs - opex < 0
  · have h2 : (0 : Int) < -(rev - cogs - opex) := by omega
    refine ⟨0, ?_⟩
    simp [hb, h2, List.range_succ, show rev - cogs < opex by omega]
  · refine ⟨max 0 (rev * 12), ?_⟩
    simp [hb, List.range_succ]

/-- C4 witness: concrete metrics with `runway = 0` produce a one-row series
with month 1. -/
theorem forecast_runway_zero_witness :
    (ForecastInput.runway ⟨some 0, 100, 20, 130⟩ = some 0) ∧
    ∃ c, build_forecast_df ⟨some 0, 100, 20, 130⟩ = some [(1, c)] :=
  ⟨rfl, forecast_runway_zero ⟨some 0, 100, 20, 130⟩ rfl⟩

/-- C5: every cash balance in a series returned by `build_forecast_df` is
non-negative; and when the net profit of the input metrics is negative, the
series is non-increasing, and once an entry reaches 0 every later entry is
also 0. -/
theorem forecast_cash_invariants (m : ForecastInput) (s : List (Int × Int))
    (h : build_forecast_df m = some s) :
    (∀ i (hi : i < s.length), 0 ≤ (s.get ⟨i, hi⟩).2) ∧
    (net_profit m < 0 →
      (∀ i j (hi : i < s.length) (hj : j < s.length), i ≤ j →
        (s.get ⟨j, hj⟩).2 ≤ (s.get ⟨i, hi⟩).2) ∧
      (∀ i j (hi : i < s.length) (hj : j < s.length), i ≤ j →
        (s.get ⟨i, hi⟩).2 = 0 → (s.get ⟨j, hj⟩).2 = 0)) := by
  obtain ⟨sc, rfl⟩ := build_forecast_df_eq_some m s h
  have hkey : ∀ i j : Nat, i ≤ j → net_profit m < 0 →
      sc + net_profit m * (j : Int) ≤ sc + net_profit m * (i : Int) := by
    intro i j hij hneg
    have hcast : (i : Int) ≤ (j : Int) := by exact_mod_cast hij
    exact add_le_add_left (mul_le_mul_of_nonpos_left hcast (le_of_lt hneg)) sc
  refine ⟨fun i hi => ?_, fun hneg => ⟨fun i j hi hj hij => ?_, fun i j hi hj hij h0 => ?_⟩⟩
  · rw [forecast_rows_get]
    exact le_max_left 0 _
  · rw [forecast_rows_get, forecast_rows_get]
    exact max_le_max (le_refl 0) (hkey i j hij hneg)
  · rw [forecast_rows_get] at h0 ⊢
    have hle : sc + net_profit m * (i : Int) ≤ 0 := by
      by_contra hgt
      push_neg at hgt
      rw [max_eq_right (le_of_lt hgt)] at h0
      omega
    have : sc + net_profit m * (j : Int) ≤ 0 := le_trans (hkey i j hij hneg) hle
    exact max_eq_left this

/-- C5 witness: a cash-burning input (runway 3, revenue 100, cogs 50, opex
100) yields the series [(1,150),(2,100),(3,50)], whose balances are all
non-negative. -/
theorem forecast_cash_invariants_witness :
    build_forecast_df ⟨some 3, 100, 50, 100⟩ = some [(1, 150), (2, 100), (3, 50)] ∧
    (∀ i (hi : i < ([((1 : Int), (150 : Int)), (2, 100), (3, 50)]).length),
      0 ≤ (([((1 : Int), (150 : Int)), (2, 100), (3, 50)]).get ⟨i, hi⟩).2) :=
  ⟨by decide, (forecast_cash_invariants ⟨some 3, 100, 50, 100⟩ _ (by decide)).1⟩

/-- C6: with no external metering service configured, each
`log_flexprice_event` call for one of the three event kinds increments exactly
that kind's counter by 1, leaves the other two counters unchanged, and returns
the updated snapshot; `n` successive calls for one kind raise its counter by
exactly `n`. -/
theorem log_event_counter_rule (s : UsageStats) (n : Nat) :
    ((log_flexprice_event ("scenario_simulated") s).2 =
        { s with scenarios_simulated := s.scenarios_simulated + 1 } ∧
      (log_flexprice_event ("scenario_simulated") s).1 =
        (log_flexprice_event ("scenario_simulated") s).2) ∧
    ((log_flexprice_event ("report_exported") s).2 =
        { s with reports_exported := s.reports_exported + 1 } ∧
      (log_flexprice_event ("report_exported") s).1 =
        (log_flexprice_event ("report_exported") s).2) ∧
    ((log_flexprice_event ("ai_price_calculation") s).2 =
        { s with ai_price_calculations := s.ai_price_calculations + 1 } ∧
      (log_flexprice_event ("ai_price_calculation") s).1 =
        (log_flexprice_event ("ai_price_calculation") s).2) ∧
    (((log_event_state ("scenario_simulated"))^[n] s).scenarios_simulated =
        s.scenarios_simulated + n ∧
      ((log_event_state ("report_exported"))^[n] s).reports_exported =
        s.reports_exported + n ∧
      ((log_event_state ("ai_price_calculation"))^[n] s).ai_price_calculations =
        s.ai_price_calculations + n) := by
  refine ⟨⟨rfl, rfl⟩, ⟨rfl, rfl⟩, ⟨rfl, rfl⟩, ?_, ?_, ?_⟩ <;>
    induction n with
    | zero => rfl
    | succ k ih =>
      rw [Function.iterate_succ_apply']
      show _ + 1 = _
      rw [ih]
      omega

/-- C7: with the language-model key configured, if the model call returns text
whose fence-stripped form the JSON parser rejects, `calculate_price` fails
with an HTTP 500 carrying a human-readable message, and does not return a
JSON body (in particular no default price). -/
theorem calculate_price_invalid_json (k : String)
    (generate_content : String → Except String String)
    (json_loads : String → Except String JsonObj)
    (desc text msg : String) (stats : UsageStats)
    (hgen : generate_content (gemini_prompt desc) = Except.ok text)
    (hparse : json_loads (cleaned_response text) = Except.error msg) :
    (calculate_price (some k) generate_content json_loads desc stats).1 =
      CalcResult.httpException 500 ("Error with Gemini API: " ++ msg) ∧
    ∀ content, (calculate_price (some k) generate_content json_loads desc stats).1 ≠
      CalcResult.jsonResponse content := by
  have hres : (calculate_price (some k) generate_content json_loads desc stats).1 =
      CalcResult.httpException 500 ("Error with Gemini API: " ++ msg) := by
    simp only [calculate_price, hgen, hparse]
  refine ⟨hres, fun content hcon => ?_⟩
  rw [hres] at hcon
  exact CalcResult.noConfusion hcon

/-- C7 witness: a configured key, a model that answers text that is not JSON,
and a parser rejecting it with the message `Expecting value` produce the 500
error. -/
theorem calculate_price_invalid_json_witness :
    (calculate_price (some ("key")) (fun _ => Except.ok ("this is not json"))
        (fun _ => Except.error ("Expecting value")) ("a pricing question") ⟨0, 0, 0⟩).1 =
      CalcResult.httpException 500 ("Error with Gemini API: " ++ "Expecting value") :=
  (calculate_price_invalid_json ("key") (fun _ => Except.ok ("this is not json"))
    (fun _ => Except.error ("Expecting value")) ("a pricing question") ("this is not json")
    ("Expecting value") ⟨0, 0, 0⟩ rfl rfl).1

/-- C8: with no language-model credentials configured, `calculate_price`
succeeds for every product description, returning a body with
`optimal_price = 999`, an explanatory reasoning string, and the current
usage-stats snapshot (the counters after this call's increment). -/
theorem calculate_price_no_key (generate_content : String → Except String String)
    (json_loads : String → Except String JsonObj) (desc : String) (stats : UsageStats) :
    calculate_price none generate_content json_loads desc stats =
      (CalcResult.jsonResponse
        [("optimal_price", JsonValue.num 999),
         ("reasoning", JsonValue.str ("GEMINI_API_KEY not configured.")),
         ("usage_stats", usage_stats_json
           { stats with ai_price_calculations := stats.ai_price_calculations + 1 })],
       { stats with ai_price_calculations := stats.ai_price_calculations + 1 }) :=
  rfl

/-- C10: `calculate_price` increments the `ai_price_calculations` counter
before the language model is contacted, so for every input — in particular
whenever the endpoint fails with a server error — the counter state after the
call has advanced by exactly 1: the failing pricing request is not atomic with
respect to the usage state. -/
theorem calculate_price_counter_advance (gemini_api_key : Option String)
    (generate_content : String → Except String String)
    (json_loads : String → Except String JsonObj) (desc : String) (stats : UsageStats) :
    (calculate_price gemini_api_key generate_content json_loads desc stats).2.ai_price_calculations
      = stats.ai_price_calculations + 1 := by
  unfold calculate_price
  cases gemini_api_key with
  | none => rfl
  | some k =>
    cases hg : generate_content (gemini_prompt desc) with
    | error e => simp [hg, log_flexprice_event, get_usage_stats]
    | ok text =>
      cases hp : json_loads (cleaned_response text) with
      | error e => simp [hg, hp, log_flexprice_event, get_usage_stats]
      | ok obj => simp [hg, hp, log_flexprice_event, get_usage_stats]

end CFO
